/-
  Spec2Proof.lean — a verification development for the security-posture
  platform's event-driven core (deriver, queue client, worker, correlator,
  notifier).

  Shallow embedding conventions:
  * Machine integers and Unix epochs are `Int`; Redis/ES string fields are
    `String`; nullable values are `Option`.
  * Python truthiness on strings/options (`x or y`, `if x:`) is embedded by
    the explicit helpers `py_or_default` / `py_or_opt` (empty string and
    `none` are falsy).
  * HTTP/JSON parsing routines that the services delegate to libraries
    (`datetime.fromisoformat`, `json.loads`) are passed in as explicit
    function parameters; every theorem quantifies over them, so every
    behaviour of the real parsers is covered.
-/

import Mathlib

/-- Python `a or b` where `a` is an optional string and `b` a string:
`None` and `""` are falsy. -/
def py_or_default (a : Option String) (b : String) : String :=
  match a with
  | some s => if s = "" then b else s
  | none => b

/-- Python `a or b` where both are optional strings. -/
def py_or_opt (a b : Option String) : Option String :=
  match a with
  | some s => if s = "" then b else some s
  | none => b

/-- Python `s.strip(c)` for a single character `c`: removes every leading and
trailing occurrence of `c`. -/
def pyStripChar (c : Char) (s : String) : String :=
  String.mk (((s.toList.dropWhile (· = c)).reverse.dropWhile (· = c)).reverse)

/-- Python `s.strip()`: removes leading and trailing whitespace. (Python
strips the wider Unicode whitespace class; the difference is immaterial to
every property proved here.) -/
def pyStrip (s : String) : String :=
  String.mk (((s.toList.dropWhile Char.isWhitespace).reverse.dropWhile
    Char.isWhitespace).reverse)

/-! ## Posture Deriver (src/services/deriver/main.py) -/

/-- The fields of the latest raw health-check document that
`run_derivation` reads (src/services/deriver/main.py lines 201-207):
`rawStatus` is `event.get("status", "unknown")`, `code` is
`event.get("code")`, `timestamp` is `event.get("@timestamp")` (absent
field gives `none`). -/
structure HealthEvent where
  rawStatus : String
  code : Option Int
  latency_ms : Option Int
  timestamp : Option String
deriving DecidableEq, Repr

/-- The asset attributes `run_derivation` copies into the status document
(src/services/deriver/main.py lines 176-190). The Python-side input
normalisation (`or ""` defaults, `int(...)` on a string criticality) maps
into these fields; the theorems quantify over all field values, so every
normalised input is covered. -/
structure Asset where
  asset_key : String
  name : String
  atype : String
  environment : String
  criticality : Int
  owner : String
  owner_team : String
deriving DecidableEq, Repr

/-- The PostureStatus document `run_derivation` upserts
(src/services/deriver/main.py lines 243-262). `at_timestamp` is the
`"@timestamp"` field. -/
structure PostureDoc where
  at_timestamp : String
  asset_key : String
  name : String
  atype : String
  environment : String
  criticality : Int
  owner : String
  owner_team : String
  status : String
  status_num : Int
  code : Option Int
  latency_ms : Option Int
  last_seen : Option String
  source_event_timestamp : Option String
  staleness_seconds : Int
  posture_score : Int
  posture_state : String
  last_status_change : Option String
deriving DecidableEq, Repr

/-- `iso_to_epoch` (src/services/deriver/main.py lines 148-155): `None` and
`""` are falsy and give `None`; otherwise parsing is delegated to
`datetime.fromisoformat`, abstracted here as the `parse` parameter
(`parse s = none` models the `except` branch returning `None`). -/
def iso_to_epoch (parse : String → Option Int) : Option String → Option Int
  | none => none
  | some s => if s = "" then none else parse s

/-- The `example_com_down_recent` flag computed once per cycle from
example-com's latest health event (src/services/deriver/main.py lines
166-174). The flag is set when that event's status is `"down"`, its epoch
is truthy (non-`None` and non-zero), and it is younger than twice the
staleness threshold. -/
def example_com_down_recent (parse : String → Option Int) (now_epoch stale_threshold : Int)
    (event : Option HealthEvent) : Bool :=
  match event with
  | none => false
  | some e =>
    match iso_to_epoch parse e.timestamp with
    | none => false
    | some ep =>
      decide (e.rawStatus = "down") && decide (ep ≠ 0) &&
        decide (now_epoch - ep < stale_threshold * 2)

/-- The status / status_num classification of one asset
(src/services/deriver/main.py lines 193-226): `unknown` and -1 with no
event or an unparseable timestamp; `stale` and 0 when the event is older
than the threshold — except that the asset `"juice-shop"` is forced to
`down` and -2 when `example_com_down_recent` is set; otherwise `up` and 1
when the code is exactly 200 or the raw status is `"up"`, else `down`
and -2. -/
def derive_status (parse : String → Option Int) (now_epoch stale_threshold : Int)
    (asset_key : String) : Option HealthEvent → Bool → String × Int
  | none, _ => ("unknown", -1)
  | some e, example_down_recent =>
    match iso_to_epoch parse e.timestamp with
    | none => ("unknown", -1)
    | some ep =>
      if now_epoch - ep > stale_threshold then
        if asset_key = "juice-shop" ∧ example_down_recent then ("down", -2) else ("stale", 0)
      else if e.code = some 200 ∨ e.rawStatus = "up" then ("up", 1)
      else ("down", -2)

/-- `staleness_seconds` (src/services/deriver/main.py line 228):
`(now_epoch - last_seen_epoch) if last_seen_epoch else 0` — note the
Python truthiness: an epoch of exactly 0 also yields 0. -/
def derive_staleness (now_epoch : Int) (last_seen_epoch : Option Int) : Int :=
  match last_seen_epoch with
  | some ep => if ep ≠ 0 then now_epoch - ep else 0
  | none => 0

/-- posture_score / posture_state (src/services/deriver/main.py lines
229-236): red/0 when status_num is -2 or -1, else amber/60 when
staleness_seconds exceeds the fixed constant 300 (not the configured
threshold), else green/100. -/
def derive_posture (status_num staleness_seconds : Int) : Int × String :=
  if status_num = -2 ∨ status_num = -1 then (0, "red")
  else if staleness_seconds > 300 then (60, "amber")
  else (100, "green")

/-- The per-asset body of `run_derivation` (src/services/deriver/main.py
lines 176-262): the complete document written for one asset, as a function
of the clock, the configured threshold, the asset row, its latest health
event, its previously stored `(status_num, last_status_change)` (as
returned by `get_prev_status`, lines 133-145: status_num is stored back as
`str(...)`), and the cycle's `example_com_down_recent` flag. -/
def derive_asset_doc (parse : String → Option Int) (now_iso : String) (now_epoch : Int)
    (stale_threshold : Int) (asset : Asset) (event : Option HealthEvent)
    (prev_status_num : Option String) (prev_last_change : Option String)
    (example_down_recent : Bool) : PostureDoc :=
  let sn := derive_status parse now_epoch stale_threshold asset.asset_key event example_down_recent
  let last_seen := event.bind HealthEvent.timestamp
  let last_seen_epoch := iso_to_epoch parse last_seen
  let staleness_seconds := derive_staleness now_epoch last_seen_epoch
  let ps := derive_posture sn.2 staleness_seconds
  let last_status_change :=
    match prev_status_num with
    | some p => if toString sn.2 ≠ p then last_seen else py_or_opt prev_last_change last_seen
    | none => py_or_opt prev_last_change last_seen
  { at_timestamp := now_iso
    asset_key := asset.asset_key
    name := asset.name
    atype := asset.atype
    environment := asset.environment
    criticality := asset.criticality
    owner := asset.owner
    owner_team := asset.owner_team
    status := sn.1
    status_num := sn.2
    code := event.bind HealthEvent.code
    latency_ms := event.bind HealthEvent.latency_ms
    last_seen := last_seen
    source_event_timestamp := last_seen
    staleness_seconds := staleness_seconds
    posture_score := ps.1
    posture_state := ps.2
    last_status_change := last_status_change }

/-- One derivation cycle's output for one asset, as a function of the whole
run's inputs: `latest_event` gives each asset key's latest health event
(`fetch_latest_health_event`), `prev_status` each key's stored previous
status (`get_prev_status`). The document for an asset reads the event map
at the asset's own key and — through the `example_com_down_recent` flag —
at `"example-com"` (src/services/deriver/main.py lines 158-262). -/
def run_derivation_for (parse : String → Option Int) (now_iso : String) (now_epoch : Int)
    (stale_threshold : Int) (asset : Asset)
    (latest_event : String → Option HealthEvent)
    (prev_status : String → Option String × Option String) : PostureDoc :=
  let flag := example_com_down_recent parse now_epoch stale_threshold (latest_event "example-com")
  let pv := prev_status asset.asset_key
  derive_asset_doc parse now_iso now_epoch stale_threshold asset (latest_event asset.asset_key)
    pv.1 pv.2 flag

/-- The status classification exactly as claim C2 words it: stale past the
threshold, else up on success — success meaning an HTTP code in the whole
2xx range or an explicit "up". Stated from the claim, for comparison with
`derive_status`. -/
def claimed_status_C2 (now_epoch stale_threshold : Int) (e : HealthEvent) (ep : Int) : String :=
  if now_epoch - ep > stale_threshold then "stale"
  else if (e.code.any fun c => decide (200 ≤ c ∧ c ≤ 299)) || (e.rawStatus == "up") then "up"
  else "down"

/-! ## Queue Client Library (src/services/queue/secplat_queue/client.py) -/

/-- Observable effects of delivering one message through `consume`'s
per-message retry loop: how many times the message was acknowledged, the
entries appended to the dead-letter stream, and how many times the handler
ran. A dead-letter entry is a field map, `String → Option String`. -/
structure MsgResult where
  acks : Nat
  dlq : List (String → Option String)
  handler_calls : Nat

/-- The dead-letter entry `{"original_stream": stream, "original_id": mid,
**payload}` (src/services/queue/secplat_queue/client.py lines 84-88) with
Python dict-merge semantics: a payload field of the same name overrides the
provenance field. -/
def dlq_entry (stream mid : String) (payload : String → Option String) :
    String → Option String :=
  fun k =>
    match payload k with
    | some v => some v
    | none =>
      if k = "original_stream" then some stream
      else if k = "original_id" then some mid
      else none

/-- The `while retries <= max_retries` loop of `consume`
(src/services/queue/secplat_queue/client.py lines 68-92). `handler n`
tells whether the handler's n-th invocation (0-based) succeeds (`false`
models `raise`). The loop always terminates within `max_retries + 1`
iterations; `fuel` bounds the recursion and is set to that at entry. -/
def retry_deliver (handler : Nat → Bool) (stream mid : String)
    (payload : String → Option String) (max_retries : Nat) : Nat → Nat → MsgResult
  | _retries, 0 => ⟨0, [], 0⟩
  | retries, fuel + 1 =>
    if retries ≤ max_retries then
      if handler retries then ⟨1, [], 1⟩
      else if retries + 1 > max_retries then ⟨1, [dlq_entry stream mid payload], 1⟩
      else
        let rest := retry_deliver handler stream mid payload max_retries (retries + 1) fuel
        ⟨rest.acks, rest.dlq, rest.handler_calls + 1⟩
    else ⟨0, [], 0⟩

/-- The full processing of one delivered message by `consume`
(src/services/queue/secplat_queue/client.py lines 66-92): the retry loop
entered with `retries = 0`; `max_retries + 1` fuel always suffices. -/
def consume_one (handler : Nat → Bool) (stream mid : String)
    (payload : String → Option String) (max_retries : Nat) : MsgResult :=
  retry_deliver handler stream mid payload max_retries 0 (max_retries + 1)

/-! ## Job Worker (src/services/worker-web/worker.py) -/

inductive JobStatus
  | queued
  | running
  | done
  | failed
deriving DecidableEq, Repr

/-- A `scan_jobs` row, restricted to the columns `claim_job_by_id` touches
or returns. -/
structure ScanJob where
  status : JobStatus
  target_asset_id : Int
  started_at : Option Int
deriving DecidableEq, Repr

/-- `claim_job_by_id` (src/services/worker-web/worker.py lines 48-60):
`UPDATE scan_jobs SET status=running, started_at=NOW() WHERE job_id = %s
AND status = queued RETURNING job_id, target_asset_id`. The job table is a
map from job id to row; the store serialises the conditional update, so one
attempt is one atomic step: the returned row (or `none`) and the new
table. -/
def claim_job_by_id (now : Int) (table : Int → Option ScanJob) (job_id : Int) :
    Option (Int × Int) × (Int → Option ScanJob) :=
  match table job_id with
  | none => (none, table)
  | some job =>
    if job.status = JobStatus.queued then
      (some (job_id, job.target_asset_id),
        fun j =>
          if j = job_id then
            some { status := JobStatus.running, target_asset_id := job.target_asset_id,
                   started_at := some now }
          else table j)
    else (none, table)

/-- A serialised sequence of `n` claim attempts for the same job id, each
seeing the table the previous one left: the list of returned rows and the
final table. -/
def claim_attempts (now : Int) (table : Int → Option ScanJob) (job_id : Int) :
    Nat → List (Option (Int × Int)) × (Int → Option ScanJob)
  | 0 => ([], table)
  | n + 1 =>
    let r := claim_job_by_id now table job_id
    let rest := claim_attempts now r.2 job_id n
    (r.1 :: rest.1, rest.2)

/-! ## Correlator (src/services/correlator/main.py) -/

/-- Observable effects of `handle_event` on one delivered message: how many
times it was acknowledged and the incident-creation calls attempted
(title, severity, asset_keys). The consuming loop
(src/services/correlator/main.py lines 140-154) neither retries nor
dead-letters: a message is only ever acknowledged (or left pending if
`handle_event` raised, which none of the modelled paths do). -/
structure CorrOutcome where
  acks : Nat
  incident_calls : List (String × String × List String)
deriving DecidableEq, Repr

/-- The `down_assets` decoding of the correlator's `alert.triggered` branch
(src/services/correlator/main.py lines 95-110). A Redis field map value is
always a string, so the `isinstance(raw, list)` arm is unreachable and a
missing field gives `[]`. `jloads` abstracts `json.loads` on the raw
string: `none` models `JSONDecodeError` (then the bracket-splitting
fallback runs, on the raw string's `strip()`; note the no-bracket arm keeps
the unstripped `raw`); a decoded JSON list of strings is `some xs`.
`json.loads` can also produce non-list values, which this branch then
treats by truthiness and iteration; quantifying over `jloads` covers every
list-valued decode. -/
def correlator_parse_down_assets (jloads : String → Option (List String))
    (raw : Option String) : List String :=
  match raw with
  | none => []
  | some s =>
    match jloads s with
    | some xs => xs
    | none =>
      if (pyStrip s).startsWith "[" then
        let inner := ((pyStrip s).drop 1).dropRight 1
        ((inner.splitOn ",").filter (fun x => decide (pyStrip x ≠ ""))).map
          (fun x => pyStripChar (Char.ofNat 39) (pyStripChar (Char.ofNat 34) (pyStrip x)))
      else if pyStrip s = "" then [] else [s]

/-- `handle_event` (src/services/correlator/main.py lines 67-127).
`create` abstracts `create_incident` (lines 47-64): it returns the created
incident's id, or `none` on any failure — login failure / missing token
included — since `create_incident` catches every exception; its result is
only logged, never branched on beyond logging. Every branch acknowledges
exactly once. -/
def handle_event (jloads : String → Option (List String))
    (create : String → String → List String → Option Int)
    (payload : String → Option String) : CorrOutcome :=
  let event_type := pyStrip (py_or_default (payload "event_type") "")
  if event_type = "" then ⟨1, []⟩
  else if event_type = "finding.created" then
    let asset_key := pyStrip (py_or_default (payload "asset_key") "")
    let finding_key := pyStrip (py_or_default (payload "finding_key") "")
    let sev0 := pyStrip (py_or_default (payload "severity") "medium")
    let severity := if sev0 = "" then "medium" else sev0
    if asset_key = "" then ⟨1, []⟩
    else
      let title := "Finding: " ++ (if finding_key = "" then "unknown" else finding_key) ++
        " on " ++ asset_key
      let _inc := create title severity [asset_key]
      ⟨1, [(title, severity, [asset_key])]⟩
  else if event_type = "alert.triggered" then
    let down_assets := correlator_parse_down_assets jloads (payload "down_assets")
    if down_assets = [] then ⟨1, []⟩
    else
      let title := "Assets down: " ++ String.intercalate ", " (down_assets.take 5) ++
        (if down_assets.length > 5 then " ..." else "")
      let _inc := create title "high" down_assets
      ⟨1, [(title, "high", down_assets)]⟩
  else ⟨1, []⟩

/-! ## Notifier (src/services/notifier/main.py) -/

/-- A decoded JSON value as the notifier's `handle_notify` distinguishes
them (src/services/notifier/main.py lines 88-101): a list of strings, null,
or any other value — carried as its Python `str()` rendering, which is all
the notifier uses of it. -/
inductive JVal
  | jlist (xs : List String)
  | jnull
  | jother (s : String)
deriving DecidableEq, Repr

/-- The notifier's `down_assets` decoding (src/services/notifier/main.py
lines 84-101). Differences from the correlator's: the fallback requires the
stripped raw to both start with `[` and end with `]`; the no-bracket arm
wraps the **stripped** string; and after decoding, a non-list JSON value is
coerced to `[str(value)]` (null to `[]`). -/
def notifier_parse_down_assets (jloads : String → Option JVal) (raw : String) : List String :=
  match jloads raw with
  | some (JVal.jlist xs) => xs
  | some JVal.jnull => []
  | some (JVal.jother s) => [s]
  | none =>
    let s := pyStrip raw
    if s.startsWith "[" ∧ s.endsWith "]" then
      let inner := (s.drop 1).dropRight 1
      ((inner.splitOn ",").filter (fun x => decide (pyStrip x ≠ ""))).map
        (fun x => pyStripChar (Char.ofNat 39) (pyStripChar (Char.ofNat 34) (pyStrip x)))
    else if s = "" then [] else [s]

/-- Observable effects of `handle_notify` on one delivered message: the
acknowledgements and the argument lists of the Slack / WhatsApp send
attempts. The consuming loop (src/services/notifier/main.py lines 124-150)
never dead-letters; it retries only by not acknowledging when
`handle_notify` raises, which no modelled path does. -/
structure NotifyOutcome where
  acks : Nat
  slack_calls : List (List String)
  whatsapp_calls : List (List String)
deriving DecidableEq, Repr

/-- `handle_notify` (src/services/notifier/main.py lines 78-108).
`slack_send` and `whatsapp_send` abstract `send_slack` / `send_whatsapp`
(lines 28-75), which return `false` on missing configuration or any send
failure; their results are ignored, and the message is acknowledged exactly
once on every path. -/
def handle_notify (jloads : String → Option JVal)
    (slack_send whatsapp_send : List String → Bool)
    (payload : String → Option String) : NotifyOutcome :=
  let msg_type := (payload "type").getD ""
  if msg_type ≠ "down_assets" then ⟨1, [], []⟩
  else
    let raw := (payload "down_assets").getD "[]"
    let down_assets := notifier_parse_down_assets jloads raw
    if down_assets = [] then ⟨1, [], []⟩
    else
      let _s := slack_send down_assets
      let _w := whatsapp_send down_assets
      ⟨1, [down_assets], [down_assets]⟩

/-! ## Projection lemmas for the derived document -/

@[simp] theorem derive_asset_doc_status (p : String → Option Int) (ni : String) (ne th : Int)
    (a : Asset) (ev : Option HealthEvent) (ps pl : Option String) (fl : Bool) :
    (derive_asset_doc p ni ne th a ev ps pl fl).status =
      (derive_status p ne th a.asset_key ev fl).1 := rfl

@[simp] theorem derive_asset_doc_status_num (p : String → Option Int) (ni : String) (ne th : Int)
    (a : Asset) (ev : Option HealthEvent) (ps pl : Option String) (fl : Bool) :
    (derive_asset_doc p ni ne th a ev ps pl fl).status_num =
      (derive_status p ne th a.asset_key ev fl).2 := rfl

@[simp] theorem derive_asset_doc_staleness (p : String → Option Int) (ni : String) (ne th : Int)
    (a : Asset) (ev : Option HealthEvent) (ps pl : Option String) (fl : Bool) :
    (derive_asset_doc p ni ne th a ev ps pl fl).staleness_seconds =
      derive_staleness ne (iso_to_epoch p (ev.bind HealthEvent.timestamp)) := rfl

@[simp] theorem derive_asset_doc_posture_score (p : String → Option Int) (ni : String)
    (ne th : Int) (a : Asset) (ev : Option HealthEvent) (ps pl : Option String) (fl : Bool) :
    (derive_asset_doc p ni ne th a ev ps pl fl).posture_score =
      (derive_posture (derive_status p ne th a.asset_key ev fl).2
        (derive_staleness ne (iso_to_epoch p (ev.bind HealthEvent.timestamp)))).1 := rfl

@[simp] theorem derive_asset_doc_posture_state (p : String → Option Int) (ni : String)
    (ne th : Int) (a : Asset) (ev : Option HealthEvent) (ps pl : Option String) (fl : Bool) :
    (derive_asset_doc p ni ne th a ev ps pl fl).posture_state =
      (derive_posture (derive_status p ne th a.asset_key ev fl).2
        (derive_staleness ne (iso_to_epoch p (ev.bind HealthEvent.timestamp)))).2 := rfl

@[simp] theorem derive_asset_doc_last_seen (p : String → Option Int) (ni : String) (ne th : Int)
    (a : Asset) (ev : Option HealthEvent) (ps pl : Option String) (fl : Bool) :
    (derive_asset_doc p ni ne th a ev ps pl fl).last_seen = ev.bind HealthEvent.timestamp := rfl

@[simp] theorem derive_asset_doc_last_status_change (p : String → Option Int) (ni : String)
    (ne th : Int) (a : Asset) (ev : Option HealthEvent) (ps pl : Option String) (fl : Bool) :
    (derive_asset_doc p ni ne th a ev ps pl fl).last_status_change =
      (match ps with
       | some q =>
         if toString (derive_status p ne th a.asset_key ev fl).2 ≠ q then
           ev.bind HealthEvent.timestamp
         else py_or_opt pl (ev.bind HealthEvent.timestamp)
       | none => py_or_opt pl (ev.bind HealthEvent.timestamp)) := rfl

/-- With a parseable event timestamp the classification reduces to the
age / success conditionals of src/services/deriver/main.py lines 209-223. -/
theorem derive_status_parsed (p : String → Option Int) (ne th : Int) (k : String)
    (e : HealthEvent) (fl : Bool) (ep : Int)
    (hep : iso_to_epoch p e.timestamp = some ep) :
    derive_status p ne th k (some e) fl =
      if ne - ep > th then
        (if k = "juice-shop" ∧ fl then ("down", -2) else ("stale", 0))
      else if e.code = some 200 ∨ e.rawStatus = "up" then ("up", 1)
      else ("down", -2) := by
  simp only [derive_status]
  rw [hep]

/-- The classification only ever produces the four pairs. -/
theorem derive_status_mem (p : String → Option Int) (ne th : Int) (k : String)
    (ev : Option HealthEvent) (fl : Bool) :
    derive_status p ne th k ev fl = ("unknown", -1) ∨
    derive_status p ne th k ev fl = ("stale", 0) ∨
    derive_status p ne th k ev fl = ("down", -2) ∨
    derive_status p ne th k ev fl = ("up", 1) := by
  cases ev with
  | none => exact Or.inl rfl
  | some e =>
    cases hiso : iso_to_epoch p e.timestamp with
    | none => simp [derive_status, hiso]
    | some ep =>
      simp only [derive_status, hiso]
      split_ifs <;> simp

/-- For an asset other than `"juice-shop"`, the classification does not read
the `example_com_down_recent` flag. -/
theorem derive_status_flag_irrel (p : String → Option Int) (ne th : Int) (k : String)
    (ev : Option HealthEvent) (f1 f2 : Bool) (hk : k ≠ "juice-shop") :
    derive_status p ne th k ev f1 = derive_status p ne th k ev f2 := by
  cases ev with
  | none => rfl
  | some e =>
    simp only [derive_status]
    cases hiso : iso_to_epoch p e.timestamp with
    | none => rfl
    | some ep => split_ifs with h1 h2 h3 <;> simp_all

/-- For an asset other than `"juice-shop"`, the whole written document does
not read the `example_com_down_recent` flag. -/
theorem derive_asset_doc_flag_irrel (p : String → Option Int) (ni : String) (ne th : Int)
    (a : Asset) (ev : Option HealthEvent) (ps pl : Option String) (f1 f2 : Bool)
    (hk : a.asset_key ≠ "juice-shop") :
    derive_asset_doc p ni ne th a ev ps pl f1 = derive_asset_doc p ni ne th a ev ps pl f2 := by
  unfold derive_asset_doc
  rw [derive_status_flag_irrel p ne th a.asset_key ev f1 f2 hk]

/-- Case split of the posture mapping, for any status_num and staleness. -/
theorem derive_posture_cases (n stal : Int) :
    (if n = -1 ∨ n = -2 then
       (derive_posture n stal).2 = "red" ∧ (derive_posture n stal).1 = 0
     else if stal > 300 then
       (derive_posture n stal).2 = "amber" ∧ (derive_posture n stal).1 = 60
     else (derive_posture n stal).2 = "green" ∧ (derive_posture n stal).1 = 100) := by
  unfold derive_posture
  split_ifs <;> simp_all

/-- C1 (amended): per-asset noninterference of the Posture Deriver holds for
every asset whose key is not "juice-shop": the document derived for such an
asset is a function of only that asset's latest HealthEvent and its
previously stored PostureStatus, so two runs that differ only in other
assets' events derive the identical document. (For "juice-shop" itself the
claim fails: src/services/deriver/main.py lines 166-174 and 214-216 make
its document depend on example-com's latest event; see the
counterexample.) -/
theorem deriver_noninterference_amended (p : String → Option Int) (ni : String) (ne th : Int)
    (a : Asset) (ev1 ev2 : String → Option HealthEvent)
    (pr1 pr2 : String → Option String × Option String)
    (hk : a.asset_key ≠ "juice-shop")
    (hev : ev1 a.asset_key = ev2 a.asset_key)
    (hpr : pr1 a.asset_key = pr2 a.asset_key) :
    run_derivation_for p ni ne th a ev1 pr1 = run_derivation_for p ni ne th a ev2 pr2 := by
  simp only [run_derivation_for]
  rw [hev, hpr]
  exact derive_asset_doc_flag_irrel p ni ne th a (ev2 a.asset_key) (pr2 a.asset_key).1
    (pr2 a.asset_key).2 _ _ hk

/-- C1 witness: a concrete non-juice-shop asset derives the same document in
two runs that differ only in example-com's (another asset's) event. -/
theorem deriver_noninterference_amended_witness :
    run_derivation_for (fun _ => some 100) "N" 500 300 ⟨"web-1", "w", "web", "prod", 3, "", ""⟩
        (fun k => if k = "example-com" then some ⟨"down", none, none, some "TE"⟩
          else if k = "web-1" then some ⟨"up", some 200, none, some "TW"⟩ else none)
        (fun _ => (none, none)) =
      run_derivation_for (fun _ => some 100) "N" 500 300 ⟨"web-1", "w", "web", "prod", 3, "", ""⟩
        (fun k => if k = "web-1" then some ⟨"up", some 200, none, some "TW"⟩ else none)
        (fun _ => (none, none)) :=
  deriver_noninterference_amended (fun _ => some 100) "N" 500 300
    ⟨"web-1", "w", "web", "prod", 3, "", ""⟩ _ _ _ _ (by decide) (by decide) rfl

/-- C1 counterexample: two runs agreeing on juice-shop's own event and
previous status (they differ only in example-com's event) derive different
documents for juice-shop — stale is overridden to down when example-com is
recently down. This falsifies claim C1 as stated. -/
theorem deriver_noninterference_cex :
    (fun k => if k = "juice-shop" then some (⟨"up", some 200, none, some "TJ"⟩ : HealthEvent)
      else if k = "example-com" then some ⟨"down", none, none, some "TE"⟩ else none)
        "juice-shop" =
      (fun k => if k = "juice-shop" then some (⟨"up", some 200, none, some "TJ"⟩ : HealthEvent)
        else none) "juice-shop" ∧
    run_derivation_for
        (fun s => if s = "TJ" then some 50 else if s = "TE" then some 350 else none)
        "N" 400 300 ⟨"juice-shop", "j", "web", "prod", 3, "", ""⟩
        (fun k => if k = "juice-shop" then some ⟨"up", some 200, none, some "TJ"⟩
          else if k = "example-com" then some ⟨"down", none, none, some "TE"⟩ else none)
        (fun _ => (none, none)) ≠
      run_derivation_for
        (fun s => if s = "TJ" then some 50 else if s = "TE" then some 350 else none)
        "N" 400 300 ⟨"juice-shop", "j", "web", "prod", 3, "", ""⟩
        (fun k => if k = "juice-shop" then some ⟨"up", some 200, none, some "TJ"⟩ else none)
        (fun _ => (none, none)) := by
  exact ⟨by decide, by decide⟩

/-- C2 (amended): for an asset with a parseable latest-event timestamp, the
derived status is "stale" past the threshold — except that "juice-shop" is
forced to "down" when the example_com_down_recent flag is set — and
otherwise "up" exactly when the event's code is exactly 200 (not the whole
2xx range) or its status is the explicit "up", else "down". -/
theorem deriver_status_classification_amended (p : String → Option Int) (ni : String)
    (ne th : Int) (a : Asset) (e : HealthEvent) (ps pl : Option String) (fl : Bool) (ep : Int)
    (hep : iso_to_epoch p e.timestamp = some ep) :
    (derive_asset_doc p ni ne th a (some e) ps pl fl).status =
      if ne - ep > th then (if a.asset_key = "juice-shop" ∧ fl then "down" else "stale")
      else if e.code = some 200 ∨ e.rawStatus = "up" then "up"
      else "down" := by
  rw [derive_asset_doc_status, derive_status_parsed p ne th a.asset_key e fl ep hep]
  split_ifs <;> rfl

/-- C2 witness: a concrete stale asset classified by the amended rule. -/
theorem deriver_status_classification_amended_witness :
    (derive_asset_doc (fun s => if s = "T0" then some 100 else none) "N" 500 300
        ⟨"web-1", "w", "web", "prod", 3, "", ""⟩ (some ⟨"up", some 200, none, some "T0"⟩)
        none none false).status = "stale" := by
  rw [deriver_status_classification_amended (fun s => if s = "T0" then some 100 else none) "N"
    500 300 ⟨"web-1", "w", "web", "prod", 3, "", ""⟩ ⟨"up", some 200, none, some "T0"⟩
    none none false 100 (by decide)]
  decide

/-- C2 counterexample: a fresh event with HTTP code 204 (a 2xx success) and
a non-"up" raw status is classified "down" by the code, while the claim's
classification (2xx means success) yields "up". This falsifies claim C2 as
stated. -/
theorem deriver_status_classification_cex :
    iso_to_epoch (fun s => if s = "T1" then some 100 else none) (some "T1") = some 100 ∧
    (derive_asset_doc (fun s => if s = "T1" then some 100 else none) "N" 100 300
        ⟨"web-1", "w", "web", "prod", 3, "", ""⟩ (some ⟨"ok", some 204, none, some "T1"⟩)
        none none false).status ≠
      claimed_status_C2 100 300 ⟨"ok", some 204, none, some "T1"⟩ 100 := by
  exact ⟨by decide, by decide⟩

/-- C3 (amended): in every derived document, status and status_num pair up
as up=1, stale=0, and down/unknown as the pair -2 and -1; posture is red with
score 0 exactly when status_num is -1 or -2 (down or unknown), else amber
with score 60 when staleness_seconds exceeds the fixed constant 300 —
the code compares against the literal 300, not the configured threshold
(src/services/deriver/main.py line 234) — else green with score 100. -/
theorem deriver_posture_mapping_amended (p : String → Option Int) (ni : String) (ne th : Int)
    (a : Asset) (ev : Option HealthEvent) (ps pl : Option String) (fl : Bool) :
    ((derive_asset_doc p ni ne th a ev ps pl fl).status = "up" ↔
      (derive_asset_doc p ni ne th a ev ps pl fl).status_num = 1) ∧
    ((derive_asset_doc p ni ne th a ev ps pl fl).status = "stale" ↔
      (derive_asset_doc p ni ne th a ev ps pl fl).status_num = 0) ∧
    (((derive_asset_doc p ni ne th a ev ps pl fl).status = "down" ∨
        (derive_asset_doc p ni ne th a ev ps pl fl).status = "unknown") ↔
      ((derive_asset_doc p ni ne th a ev ps pl fl).status_num = -1 ∨
        (derive_asset_doc p ni ne th a ev ps pl fl).status_num = -2)) ∧
    (if (derive_asset_doc p ni ne th a ev ps pl fl).status_num = -1 ∨
        (derive_asset_doc p ni ne th a ev ps pl fl).status_num = -2 then
      (derive_asset_doc p ni ne th a ev ps pl fl).posture_state = "red" ∧
        (derive_asset_doc p ni ne th a ev ps pl fl).posture_score = 0
    else if (derive_asset_doc p ni ne th a ev ps pl fl).staleness_seconds > 300 then
      (derive_asset_doc p ni ne th a ev ps pl fl).posture_state = "amber" ∧
        (derive_asset_doc p ni ne th a ev ps pl fl).posture_score = 60
    else
      (derive_asset_doc p ni ne th a ev ps pl fl).posture_state = "green" ∧
        (derive_asset_doc p ni ne th a ev ps pl fl).posture_score = 100) := by
  rcases derive_status_mem p ne th a.asset_key ev fl with h | h | h | h <;>
    refine ⟨?_, ?_, ?_, ?_⟩ <;>
    simp only [derive_asset_doc_status, derive_asset_doc_status_num,
      derive_asset_doc_posture_state, derive_asset_doc_posture_score,
      derive_asset_doc_staleness, h] <;>
    first
      | decide
      | (split_ifs <;> simp_all [derive_posture] <;> rw [if_neg (by omega)] <;> simp)

/-- C3 counterexample: with the staleness threshold configured to 200, an
asset whose event is 250 seconds old is derived "stale" (it is stale beyond
the threshold), yet its posture is green with score 100, because the
posture rule compares staleness against the literal 300 rather than the
configured threshold. The claim as stated predicts amber and 60. -/
theorem deriver_posture_mapping_cex :
    (derive_asset_doc (fun s => if s = "T2" then some 10 else none) "N" 260 200
        ⟨"web-1", "w", "web", "prod", 3, "", ""⟩ (some ⟨"up", some 200, none, some "T2"⟩)
        none none false).status = "stale" ∧
    (derive_asset_doc (fun s => if s = "T2" then some 10 else none) "N" 260 200
        ⟨"web-1", "w", "web", "prod", 3, "", ""⟩ (some ⟨"up", some 200, none, some "T2"⟩)
        none none false).staleness_seconds = 250 ∧
    (derive_asset_doc (fun s => if s = "T2" then some 10 else none) "N" 260 200
        ⟨"web-1", "w", "web", "prod", 3, "", ""⟩ (some ⟨"up", some 200, none, some "T2"⟩)
        none none false).posture_state = "green" ∧
    (derive_asset_doc (fun s => if s = "T2" then some 10 else none) "N" 260 200
        ⟨"web-1", "w", "web", "prod", 3, "", ""⟩ (some ⟨"up", some 200, none, some "T2"⟩)
        none none false).posture_score = 100 := by
  exact ⟨by decide, by decide, by decide, by decide⟩

/-- C4 (amended): for an asset with a previously stored status_num `q`: if
the newly derived status_num (as `str(...)`) equals `q` then the written
last_status_change equals the previously stored one whenever that stored
value is non-null and non-empty; when the stored value is null or empty it
is instead initialised to the newest event's timestamp. If the derived
status_num differs from `q`, the written last_status_change equals the
newest event's timestamp. -/
theorem deriver_last_status_change_amended (p : String → Option Int) (ni : String) (ne th : Int)
    (a : Asset) (e : HealthEvent) (pl : Option String) (fl : Bool) (q : String) :
    (toString (derive_asset_doc p ni ne th a (some e) (some q) pl fl).status_num = q →
      (∀ s, pl = some s → s ≠ "" →
        (derive_asset_doc p ni ne th a (some e) (some q) pl fl).last_status_change = some s) ∧
      ((pl = none ∨ pl = some "") →
        (derive_asset_doc p ni ne th a (some e) (some q) pl fl).last_status_change =
          e.timestamp)) ∧
    (toString (derive_asset_doc p ni ne th a (some e) (some q) pl fl).status_num ≠ q →
      (derive_asset_doc p ni ne th a (some e) (some q) pl fl).last_status_change =
        e.timestamp) := by
  simp only [derive_asset_doc_status_num, derive_asset_doc_last_status_change]
  constructor
  · intro heq
    constructor
    · intro s hpl hs
      simp [heq, hpl, py_or_opt, hs]
    · intro hpl
      rcases hpl with h0 | h0 <;> simp [heq, h0, py_or_opt]
  · intro hne
    simp [hne]

/-- C4 witness: with a stored status_num "1" and a stored non-empty
last_status_change, an unchanged status preserves the stored value. -/
theorem deriver_last_status_change_amended_witness :
    (toString (derive_asset_doc (fun s => if s = "T0" then some 100 else none) "N" 100 300
        ⟨"web-1", "w", "web", "prod", 3, "", ""⟩ (some ⟨"up", some 200, none, some "T0"⟩)
        (some "1") (some "TPREV") false).status_num = "1" →
      (∀ s, (some "TPREV" : Option String) = some s → s ≠ "" →
        (derive_asset_doc (fun s => if s = "T0" then some 100 else none) "N" 100 300
          ⟨"web-1", "w", "web", "prod", 3, "", ""⟩ (some ⟨"up", some 200, none, some "T0"⟩)
          (some "1") (some "TPREV") false).last_status_change = some s) ∧
      (((some "TPREV" : Option String) = none ∨ (some "TPREV" : Option String) = some "") →
        (derive_asset_doc (fun s => if s = "T0" then some 100 else none) "N" 100 300
          ⟨"web-1", "w", "web", "prod", 3, "", ""⟩ (some ⟨"up", some 200, none, some "T0"⟩)
          (some "1") (some "TPREV") false).last_status_change = some "T0")) ∧
    (toString (derive_asset_doc (fun s => if s = "T0" then some 100 else none) "N" 100 300
        ⟨"web-1", "w", "web", "prod", 3, "", ""⟩ (some ⟨"up", some 200, none, some "T0"⟩)
        (some "1") (some "TPREV") false).status_num ≠ "1" →
      (derive_asset_doc (fun s => if s = "T0" then some 100 else none) "N" 100 300
        ⟨"web-1", "w", "web", "prod", 3, "", ""⟩ (some ⟨"up", some 200, none, some "T0"⟩)
        (some "1") (some "TPREV") false).last_status_change = some "T0") :=
  deriver_last_status_change_amended (fun s => if s = "T0" then some 100 else none) "N" 100 300
    ⟨"web-1", "w", "web", "prod", 3, "", ""⟩ ⟨"up", some 200, none, some "T0"⟩
    (some "TPREV") false "1"

/-- C4 counterexample: a previously stored PostureStatus with status_num "1"
but a null last_status_change, and a new event deriving the same
status_num 1: the claim as stated requires the written last_status_change
to equal the stored one (null), but the code writes the event timestamp. -/
theorem deriver_last_status_change_cex :
    toString (derive_asset_doc (fun s => if s = "T0" then some 100 else none) "N" 100 300
        ⟨"web-1", "w", "web", "prod", 3, "", ""⟩ (some ⟨"up", some 200, none, some "T0"⟩)
        (some "1") none false).status_num = "1" ∧
    (derive_asset_doc (fun s => if s = "T0" then some 100 else none) "N" 100 300
        ⟨"web-1", "w", "web", "prod", 3, "", ""⟩ (some ⟨"up", some 200, none, some "T0"⟩)
        (some "1") none false).last_status_change ≠ (none : Option String) := by
  exact ⟨by decide, by decide⟩

/-- If the handler first succeeds at attempt `m ≤ max_retries`, the retry
loop (entered at any `retries ≤ m` with enough fuel) acknowledges once,
dead-letters nothing, and has called the handler `m - retries + 1` times. -/
theorem retry_deliver_first_success (handler : Nat → Bool) (stream mid : String)
    (payload : String → Option String) (max_retries : Nat) :
    ∀ fuel retries m, retries ≤ m → m ≤ max_retries →
      (∀ k, retries ≤ k → k < m → handler k = false) → handler m = true →
      m - retries < fuel →
      retry_deliver handler stream mid payload max_retries retries fuel =
        ⟨1, [], m - retries + 1⟩ := by
  intro fuel
  induction fuel with
  | zero => intro retries m _ _ _ _ hf; omega
  | succ n ih =>
    intro retries m hrm hmmax hfail hm hfuel
    simp only [retry_deliver]
    rw [if_pos (le_trans hrm hmmax)]
    by_cases heq : retries = m
    · subst heq
      rw [hm]
      simp
    · have hlt : retries < m := lt_of_le_of_ne hrm heq
      rw [hfail retries le_rfl hlt]
      rw [if_neg (show ¬(false = true) by simp)]
      rw [if_neg (by omega)]
      rw [ih (retries + 1) m (by omega) hmmax (fun k hk1 hk2 => hfail k (by omega) hk2) hm
        (by omega)]
      simp
      omega

/-- If the handler always raises, the retry loop appends exactly one
dead-letter entry, acknowledges once, and has called the handler
`max_retries - retries + 1` times. -/
theorem retry_deliver_all_fail (handler : Nat → Bool) (stream mid : String)
    (payload : String → Option String) (max_retries : Nat)
    (hfail : ∀ k, handler k = false) :
    ∀ fuel retries, retries ≤ max_retries → max_retries - retries < fuel →
      retry_deliver handler stream mid payload max_retries retries fuel =
        ⟨1, [dlq_entry stream mid payload], max_retries - retries + 1⟩ := by
  intro fuel
  induction fuel with
  | zero => intro retries _ hf; omega
  | succ n ih =>
    intro retries hr hfuel
    simp only [retry_deliver]
    rw [if_pos hr, hfail retries]
    rw [if_neg (show ¬(false = true) by simp)]
    by_cases hend : retries + 1 > max_retries
    · rw [if_pos hend]
      have hrm : retries = max_retries := by omega
      subst hrm
      simp
    · rw [if_neg hend]
      rw [ih (retries + 1) (by omega) (by omega)]
      simp
      omega

/-- C5: at-least-once delivery with in-process retry. A handler that raises
on its first N-1 invocations and succeeds on the Nth, N ≤ max_retries,
results in exactly one acknowledgment, zero dead-letter entries, and
exactly N handler invocations
(src/services/queue/secplat_queue/client.py lines 60-92). -/
theorem consume_retry_at_least_once (handler : Nat → Bool) (stream mid : String)
    (payload : String → Option String) (max_retries N : Nat)
    (_hmr : 1 ≤ max_retries) (hN : 1 ≤ N) (hNm : N ≤ max_retries)
    (hfail : ∀ k, k < N - 1 → handler k = false) (hsucc : handler (N - 1) = true) :
    (consume_one handler stream mid payload max_retries).acks = 1 ∧
    (consume_one handler stream mid payload max_retries).dlq = [] ∧
    (consume_one handler stream mid payload max_retries).handler_calls = N := by
  have h := retry_deliver_first_success handler stream mid payload max_retries
    (max_retries + 1) 0 (N - 1) (Nat.zero_le _) (by omega) (fun k _ hk => hfail k hk) hsucc
    (by omega)
  unfold consume_one
  rw [h]
  refine ⟨rfl, rfl, ?_⟩
  simp
  omega

/-- C5 witness: a handler failing once then succeeding (N = 2,
max_retries = 2) is acknowledged once with an empty dead-letter list. -/
theorem consume_retry_at_least_once_witness :
    (consume_one (fun k => decide (1 ≤ k)) "s" "m" (fun _ => none) 2).acks = 1 ∧
    (consume_one (fun k => decide (1 ≤ k)) "s" "m" (fun _ => none) 2).dlq = [] ∧
    (consume_one (fun k => decide (1 ≤ k)) "s" "m" (fun _ => none) 2).handler_calls = 2 :=
  consume_retry_at_least_once (fun k => decide (1 ≤ k)) "s" "m" (fun _ => none) 2 2
    (by decide) (by decide) (by decide)
    (fun k hk => by
      have hk0 : k = 0 := by omega
      subst hk0
      rfl)
    rfl

/-- C6 (amended): dead-lettering with provenance holds for every payload
that does not itself carry a field named original_stream or original_id: a
handler that always raises yields exactly one dead-letter entry whose
original_stream is the source stream, whose original_id is the
transport-assigned id, and which carries every payload field verbatim, and
the message is acknowledged exactly once. (For a payload that does carry
such a field, the dict merge at
src/services/queue/secplat_queue/client.py line 86 lets the payload value
override the provenance; see the counterexample.) -/
theorem consume_dead_letter_provenance_amended (handler : Nat → Bool) (stream mid : String)
    (payload : String → Option String) (max_retries : Nat) (k v : String)
    (hfail : ∀ n, handler n = false)
    (hs : payload "original_stream" = none)
    (hi : payload "original_id" = none)
    (hkv : payload k = some v) :
    (consume_one handler stream mid payload max_retries).acks = 1 ∧
    ((consume_one handler stream mid payload max_retries).dlq.map
      (fun e => e "original_stream")) = [some stream] ∧
    ((consume_one handler stream mid payload max_retries).dlq.map
      (fun e => e "original_id")) = [some mid] ∧
    ((consume_one handler stream mid payload max_retries).dlq.map (fun e => e k)) = [some v] ∧
    (consume_one handler stream mid payload max_retries).dlq.length = 1 := by
  have h := retry_deliver_all_fail handler stream mid payload max_retries hfail
    (max_retries + 1) 0 (Nat.zero_le _) (by omega)
  unfold consume_one
  rw [h]
  refine ⟨rfl, ?_, ?_, ?_, rfl⟩ <;> simp [dlq_entry, hs, hi, hkv]

/-- C6 witness: an always-failing handler on a payload with one ordinary
field produces one provenance-correct dead-letter entry and one ack. -/
theorem consume_dead_letter_provenance_amended_witness :
    (consume_one (fun _ => false) "s" "1-1"
      (fun x => if x = "body" then some "hello" else none) 2).acks = 1 ∧
    ((consume_one (fun _ => false) "s" "1-1"
      (fun x => if x = "body" then some "hello" else none) 2).dlq.map
      (fun e => e "original_stream")) = [some "s"] ∧
    ((consume_one (fun _ => false) "s" "1-1"
      (fun x => if x = "body" then some "hello" else none) 2).dlq.map
      (fun e => e "original_id")) = [some "1-1"] ∧
    ((consume_one (fun _ => false) "s" "1-1"
      (fun x => if x = "body" then some "hello" else none) 2).dlq.map
      (fun e => e "body")) = [some "hello"] ∧
    (consume_one (fun _ => false) "s" "1-1"
      (fun x => if x = "body" then some "hello" else none) 2).dlq.length = 1 :=
  consume_dead_letter_provenance_amended (fun _ => false) "s" "1-1"
    (fun x => if x = "body" then some "hello" else none) 2 "body" "hello"
    (fun _ => rfl) (by decide) (by decide) (by decide)

/-- C6 counterexample: a payload whose own field is named original_stream
overrides the provenance in the dead-letter entry — the entry's
original_stream is the payload's value, not the source stream name. This
falsifies claim C6 as stated. -/
theorem consume_dead_letter_provenance_cex :
    ((consume_one (fun _ => false) "s" "m1"
        (fun x => if x = "original_stream" then some "evil" else none) 1).dlq.map
      (fun e => e "original_stream")) = [some "evil"] ∧
    ((consume_one (fun _ => false) "s" "m1"
        (fun x => if x = "original_stream" then some "evil" else none) 1).dlq.map
      (fun e => e "original_stream")) ≠ [some "s"] := by
  exact ⟨by decide, by decide⟩

/-- Claim attempts against a job whose stored row is not queued all return
nothing and leave the table unchanged. -/
theorem claim_attempts_not_queued (now : Int) (job_id : Int) :
    ∀ (n : Nat) (table : Int → Option ScanJob) (job : ScanJob),
      table job_id = some job → job.status ≠ JobStatus.queued →
      (claim_attempts now table job_id n).1 = List.replicate n none := by
  intro n
  induction n with
  | zero => intro table job _ _; rfl
  | succ m ih =>
    intro table job hj hq
    simp only [claim_attempts, claim_job_by_id, hj]
    rw [if_neg hq]
    simp [ih table job hj hq, List.replicate]

/-- C7: job claim atomicity and exclusivity. `claim_job_by_id` returns the
row exactly when the job's status was queued, in which case the job
becomes running (with started_at set); in any other status it returns
nothing and the table is unchanged; and of any serialised sequence of n > 0
claim attempts for the same queued job, exactly the first succeeds
(src/services/worker-web/worker.py lines 48-60). -/
theorem claim_job_exclusivity (now : Int) (table : Int → Option ScanJob) (job_id : Int)
    (job : ScanJob) (n : Nat)
    (hj : table job_id = some job) (hn : 0 < n) :
    ((claim_job_by_id now table job_id).1.isSome ↔ job.status = JobStatus.queued) ∧
    (job.status = JobStatus.queued →
      (claim_job_by_id now table job_id).1 = some (job_id, job.target_asset_id) ∧
      (claim_job_by_id now table job_id).2 job_id =
        some ⟨JobStatus.running, job.target_asset_id, some now⟩) ∧
    (job.status ≠ JobStatus.queued →
      (claim_job_by_id now table job_id).1 = none ∧
      (claim_job_by_id now table job_id).2 = table) ∧
    (job.status = JobStatus.queued →
      (claim_attempts now table job_id n).1 =
        some (job_id, job.target_asset_id) :: List.replicate (n - 1) none) := by
  refine ⟨?_, ?_, ?_, ?_⟩
  · simp only [claim_job_by_id, hj]
    by_cases hq : job.status = JobStatus.queued <;> simp [hq]
  · intro hq
    simp only [claim_job_by_id, hj]
    rw [if_pos hq]
    exact ⟨rfl, by simp⟩
  · intro hq
    simp only [claim_job_by_id, hj]
    rw [if_neg hq]
    exact ⟨rfl, rfl⟩
  · intro hq
    cases n with
    | zero => omega
    | succ m =>
      have hr : (claim_job_by_id now table job_id).1 = some (job_id, job.target_asset_id) := by
        simp only [claim_job_by_id, hj]
        rw [if_pos hq]
      have ht : (claim_job_by_id now table job_id).2 job_id =
          some ⟨JobStatus.running, job.target_asset_id, some now⟩ := by
        simp only [claim_job_by_id, hj]
        rw [if_pos hq]
        simp
      simp only [claim_attempts]
      rw [claim_attempts_not_queued now job_id m ((claim_job_by_id now table job_id).2)
        ⟨JobStatus.running, job.target_asset_id, some now⟩ ht (by simp)]
      simp [hr]

/-- C7 witness: three serialised attempts on a concrete queued job — only
the first returns the row. -/
theorem claim_job_exclusivity_witness :
    ((claim_job_by_id 1000 (fun j => if j = 7 then some ⟨JobStatus.queued, 42, none⟩ else none)
        7).1.isSome ↔ (ScanJob.mk JobStatus.queued 42 none).status = JobStatus.queued) ∧
    ((ScanJob.mk JobStatus.queued 42 none).status = JobStatus.queued →
      (claim_job_by_id 1000 (fun j => if j = 7 then some ⟨JobStatus.queued, 42, none⟩ else none)
        7).1 = some (7, 42) ∧
      (claim_job_by_id 1000 (fun j => if j = 7 then some ⟨JobStatus.queued, 42, none⟩ else none)
        7).2 7 = some ⟨JobStatus.running, 42, some 1000⟩) ∧
    ((ScanJob.mk JobStatus.queued 42 none).status ≠ JobStatus.queued →
      (claim_job_by_id 1000 (fun j => if j = 7 then some ⟨JobStatus.queued, 42, none⟩ else none)
        7).1 = none ∧
      (claim_job_by_id 1000 (fun j => if j = 7 then some ⟨JobStatus.queued, 42, none⟩ else none)
        7).2 = (fun j => if j = 7 then some ⟨JobStatus.queued, 42, none⟩ else none)) ∧
    ((ScanJob.mk JobStatus.queued 42 none).status = JobStatus.queued →
      (claim_attempts 1000 (fun j => if j = 7 then some ⟨JobStatus.queued, 42, none⟩ else none)
        7 3).1 = some (7, 42) :: List.replicate (3 - 1) none) :=
  claim_job_exclusivity 1000 (fun j => if j = 7 then some ⟨JobStatus.queued, 42, none⟩ else none)
    7 ⟨JobStatus.queued, 42, none⟩ 3 (by decide) (by decide)

/-- C8: correlator malformed-input policy. Any delivered message whose
event_type is empty or unknown, or a finding.created with no asset_key, or
an alert.triggered whose decoded down_assets list is empty, is acknowledged
exactly once with no incident-creation call — and `handle_event` returns
normally, so the consuming loop neither retries nor dead-letters it
(src/services/correlator/main.py lines 67-127). -/
theorem correlator_malformed_ack (jloads : String → Option (List String))
    (create : String → String → List String → Option Int)
    (payload : String → Option String)
    (h : pyStrip (py_or_default (payload "event_type") "") = "" ∨
      (pyStrip (py_or_default (payload "event_type") "") ≠ "finding.created" ∧
        pyStrip (py_or_default (payload "event_type") "") ≠ "alert.triggered") ∨
      (pyStrip (py_or_default (payload "event_type") "") = "finding.created" ∧
        pyStrip (py_or_default (payload "asset_key") "") = "") ∨
      (pyStrip (py_or_default (payload "event_type") "") = "alert.triggered" ∧
        correlator_parse_down_assets jloads (payload "down_assets") = [])) :
    handle_event jloads create payload = ⟨1, []⟩ := by
  rcases h with h0 | ⟨h1, h2⟩ | ⟨h1, h2⟩ | ⟨h1, h2⟩
  · simp [handle_event, h0]
  · by_cases h0 : pyStrip (py_or_default (payload "event_type") "") = "" <;>
      simp [handle_event, h0, h1, h2]
  · simp [handle_event, h1, h2]
  · simp [handle_event, h1, h2]

/-- C8 witness: an empty payload (no event_type at all) is acknowledged
once with no incident call. -/
theorem correlator_malformed_ack_witness :
    handle_event (fun _ => none) (fun _ _ _ => none) (fun _ => none) = ⟨1, []⟩ :=
  correlator_malformed_ack (fun _ => none) (fun _ _ _ => none) (fun _ => none)
    (Or.inl (by decide))

/-- C9: correlator forward progress on downstream failure. For a
well-formed finding.created (non-empty asset_key) or alert.triggered
(non-empty decoded down_assets), even when every incident-creation call
fails (`create` always returns none — covering API failure and missing
bearer token alike), `handle_event` acknowledges exactly once and attempts
exactly one incident call; it returns normally, so the consuming loop
neither retries nor dead-letters the event
(src/services/correlator/main.py lines 47-64 and 85-123). -/
theorem correlator_downstream_failure_ack (jloads : String → Option (List String))
    (create : String → String → List String → Option Int)
    (payload : String → Option String)
    (_hcreate : ∀ t s a, create t s a = none)
    (h : (pyStrip (py_or_default (payload "event_type") "") = "finding.created" ∧
        pyStrip (py_or_default (payload "asset_key") "") ≠ "") ∨
      (pyStrip (py_or_default (payload "event_type") "") = "alert.triggered" ∧
        correlator_parse_down_assets jloads (payload "down_assets") ≠ [])) :
    (handle_event jloads create payload).acks = 1 ∧
    (handle_event jloads create payload).incident_calls.length = 1 := by
  rcases h with ⟨h1, h2⟩ | ⟨h1, h2⟩ <;> simp [handle_event, h1, h2]

/-- C9 witness: a well-formed finding.created with an always-failing
incident API is still acknowledged exactly once. -/
theorem correlator_downstream_failure_ack_witness :
    (handle_event (fun _ => none) (fun _ _ _ => none)
      (fun f => if f = "event_type" then some "finding.created"
        else if f = "asset_key" then some "a1" else none)).acks = 1 ∧
    (handle_event (fun _ => none) (fun _ _ _ => none)
      (fun f => if f = "event_type" then some "finding.created"
        else if f = "asset_key" then some "a1" else none)).incident_calls.length = 1 :=
  correlator_downstream_failure_ack (fun _ => none) (fun _ _ _ => none)
    (fun f => if f = "event_type" then some "finding.created"
      else if f = "asset_key" then some "a1" else none)
    (fun _ _ _ => rfl) (Or.inl ⟨by decide, by decide⟩)

/-- C10: the notifier acknowledges regardless of delivery outcome. For a
well-formed down_assets message (type field "down_assets", non-empty
decoded asset list), `handle_notify` acknowledges exactly once and records
one Slack and one WhatsApp attempt even when both channels fail or are
unconfigured (both send functions always return false); it returns
normally, so the undelivered notification is neither retried nor
dead-lettered (src/services/notifier/main.py lines 78-108). -/
theorem notifier_ack_on_failed_delivery (jloads : String → Option JVal)
    (slack_send whatsapp_send : List String → Bool)
    (payload : String → Option String)
    (_hs : ∀ xs, slack_send xs = false) (_hw : ∀ xs, whatsapp_send xs = false)
    (hty : (payload "type").getD "" = "down_assets")
    (hne : notifier_parse_down_assets jloads ((payload "down_assets").getD "[]") ≠ []) :
    (handle_notify jloads slack_send whatsapp_send payload).acks = 1 ∧
    (handle_notify jloads slack_send whatsapp_send payload).slack_calls =
      [notifier_parse_down_assets jloads ((payload "down_assets").getD "[]")] ∧
    (handle_notify jloads slack_send whatsapp_send payload).whatsapp_calls =
      [notifier_parse_down_assets jloads ((payload "down_assets").getD "[]")] := by
  simp [handle_notify, hty, hne]

/-- C10 witness: a concrete down_assets message with both channels failing
is acknowledged once. -/
theorem notifier_ack_on_failed_delivery_witness :
    (handle_notify (fun _ => some (JVal.jlist ["a2"])) (fun _ => false) (fun _ => false)
      (fun f => if f = "type" then some "down_assets"
        else if f = "down_assets" then some "x" else none)).acks = 1 ∧
    (handle_notify (fun _ => some (JVal.jlist ["a2"])) (fun _ => false) (fun _ => false)
      (fun f => if f = "type" then some "down_assets"
        else if f = "down_assets" then some "x" else none)).slack_calls =
      [notifier_parse_down_assets (fun _ => some (JVal.jlist ["a2"]))
        (((fun f => if f = "type" then some "down_assets"
          else if f = "down_assets" then some "x" else none) "down_assets").getD "[]")] ∧
    (handle_notify (fun _ => some (JVal.jlist ["a2"])) (fun _ => false) (fun _ => false)
      (fun f => if f = "type" then some "down_assets"
        else if f = "down_assets" then some "x" else none)).whatsapp_calls =
      [notifier_parse_down_assets (fun _ => some (JVal.jlist ["a2"]))
        (((fun f => if f = "type" then some "down_assets"
          else if f = "down_assets" then some "x" else none) "down_assets").getD "[]")] :=
  notifier_ack_on_failed_delivery (fun _ => some (JVal.jlist ["a2"])) (fun _ => false)
    (fun _ => false)
    (fun f => if f = "type" then some "down_assets"
      else if f = "down_assets" then some "x" else none)
    (fun _ => rfl) (fun _ => rfl) (by decide) (by decide)
